import Mathlib

/-!
Verification of the step-and-repeat layout optimizer against its source.

The embedded code is `optimizeStepAndRepeat` and the core logic of
`commitChanges` from `src/js/app.js` (the newer variant) and
`src/unnamed/part_000` (the older variant). Numbers are modelled as
rationals. The two counting loops advance only by mutating a local
accumulator, so they are embedded with an explicit fuel parameter: a call
that returns `none` has not terminated within the given fuel, and a result
that is `none` for every fuel is a non-terminating loop.
-/

namespace StepAndRepeat

/-- Names of the five request fields, as interpolated into the
`Property "k" is null` error message of the sanitize loop. -/
inductive FieldName
  | documentWidth
  | documentHeight
  | documentMargin
  | itemWidth
  | itemHeight
deriving DecidableEq

/-- The axis named by the two `Too much margin` error messages. -/
inductive Axis
  | width
  | height
deriving DecidableEq

/-- The errors `optimizeStepAndRepeat` can throw: a null property
(src/js/app.js line 70) or an excessive margin (lines 88 and 92). -/
inductive LayoutError
  | nullField (name : FieldName)
  | tooMuchMargin (axis : Axis)
deriving DecidableEq

instance {ε α : Type} [DecidableEq ε] [DecidableEq α] : DecidableEq (Except ε α) := fun x y =>
  match x, y with
  | Except.error a, Except.error b =>
    if h : a = b then Decidable.isTrue (congrArg Except.error h)
    else Decidable.isFalse (fun hc => h (Except.error.inj hc))
  | Except.error _, Except.ok _ => Decidable.isFalse (fun hc => Except.noConfusion hc)
  | Except.ok _, Except.error _ => Decidable.isFalse (fun hc => Except.noConfusion hc)
  | Except.ok a, Except.ok b =>
    if h : a = b then Decidable.isTrue (congrArg Except.ok h)
    else Decidable.isFalse (fun hc => h (Except.ok.inj hc))

/-- The props object handed to `optimizeStepAndRepeat`. A field that is
absent from the object, or present with value null, is `none`: the source
normalizes both to null with `props.x = props.x ?? null` (app.js lines
54-58), and the margin default also treats the two alike. -/
structure LayoutRequest where
  documentWidth : Option ℚ
  documentHeight : Option ℚ
  documentMargin : Option ℚ
  itemWidth : Option ℚ
  itemHeight : Option ℚ
deriving DecidableEq

/-- Convenience constructor: a request with all five fields present. -/
def mkReq (dw dh dm iw ih : ℚ) : LayoutRequest :=
  { documentWidth := some dw, documentHeight := some dh, documentMargin := some dm,
    itemWidth := some iw, itemHeight := some ih }

/-- The props object as returned by `optimizeStepAndRepeat` (app.js line
125): the sanitized fields, the usable post-margin dimensions stored back
into `documentWidth` and `documentHeight`, the retained real dimensions,
and the packing counts. -/
structure LayoutResult where
  documentWidth : ℚ
  documentHeight : ℚ
  documentMargin : ℚ
  itemWidth : ℚ
  itemHeight : ℚ
  documentWidthReal : ℚ
  documentHeightReal : ℚ
  maxRows : ℕ
  maxColumns : ℕ
deriving DecidableEq

/-- State of the props object after validation, sanitization and margin
subtraction (app.js lines 54-94), just before the counting loops. -/
structure Prepared where
  usableWidth : ℚ
  usableHeight : ℚ
  documentMargin : ℚ
  itemWidth : ℚ
  itemHeight : ℚ
  documentWidthReal : ℚ
  documentHeightReal : ℚ
deriving DecidableEq

/-- The column loop of both variants and the row loop of app.js
(app.js lines 101-109 and 112-120, part_000 lines 116-124):

`for (let i = 0, accum = 0; i <= limit;) { if (accum + item > limit) break; accum += item; count++ }`

The loop variable `i` is never incremented, so the header condition is
`0 <= limit` on every test. `none` means the fuel ran out with the loop
still running. -/
def countFitAux (limit item : ℚ) : ℕ → ℚ → ℕ → Option ℕ
  | 0, _, _ => none
  | fuel + 1, accum, count =>
    if ¬ (0 ≤ limit) then some count
    else if limit < accum + item then some count
    else countFitAux limit item fuel (accum + item) (count + 1)

/-- Entry point of the permissive counting loop: `i = 0, accum = 0`,
counter starting at 0. -/
def countFit (limit item : ℚ) (fuel : ℕ) : Option ℕ :=
  countFitAux limit item fuel 0 0

/-- The row loop of part_000 (lines 127-135), whose break condition is
`accum + item >= limit` instead of `>`: an exact edge-aligned fit breaks
out instead of being counted. -/
def countFitStrictAux (limit item : ℚ) : ℕ → ℚ → ℕ → Option ℕ
  | 0, _, _ => none
  | fuel + 1, accum, count =>
    if ¬ (0 ≤ limit) then some count
    else if limit ≤ accum + item then some count
    else countFitStrictAux limit item fuel (accum + item) (count + 1)

/-- Entry point of the strict counting loop. -/
def countFitStrict (limit item : ℚ) (fuel : ℕ) : Option ℕ :=
  countFitStrictAux limit item fuel 0 0

/-- Sanitization and margin arithmetic applied to the five extracted field
values (app.js lines 73-94). Every field is replaced by its absolute value,
including the `documentWidthReal` and `documentHeightReal` copies, which
were recorded before the sanitize loop and are keys of the same props
object the loop iterates over. When the sanitized margin is nonzero, twice
the margin is subtracted from each document dimension, and a result that is
not strictly positive throws, width checked first. -/
def prepareVals (dw dh dm iw ih : ℚ) : Except LayoutError Prepared :=
  if |dm| ≠ 0 then
    if |dw| - |dm| * 2 ≤ 0 then Except.error (LayoutError.tooMuchMargin Axis.width)
    else if |dh| - |dm| * 2 ≤ 0 then Except.error (LayoutError.tooMuchMargin Axis.height)
    else Except.ok
      { usableWidth := |dw| - |dm| * 2, usableHeight := |dh| - |dm| * 2,
        documentMargin := |dm|, itemWidth := |iw|, itemHeight := |ih|,
        documentWidthReal := |dw|, documentHeightReal := |dh| }
  else Except.ok
    { usableWidth := |dw|, usableHeight := |dh|,
      documentMargin := |dm|, itemWidth := |iw|, itemHeight := |ih|,
      documentWidthReal := |dw|, documentHeightReal := |dh| }

/-- Validation phase of `optimizeStepAndRepeat` (app.js lines 54-94).
The margin is defaulted to 12.7 before the null checks, so it can never be
reported null; the null checks fire in the key order of the props object
(documentWidth, documentHeight, documentMargin, itemWidth, itemHeight,
then the two Real copies, which are null only when the originals are and
therefore never reached). -/
def prepare (props : LayoutRequest) : Except LayoutError Prepared :=
  match props.documentWidth with
  | none => Except.error (LayoutError.nullField FieldName.documentWidth)
  | some dw =>
    match props.documentHeight with
    | none => Except.error (LayoutError.nullField FieldName.documentHeight)
    | some dh =>
      match props.itemWidth with
      | none => Except.error (LayoutError.nullField FieldName.itemWidth)
      | some iw =>
        match props.itemHeight with
        | none => Except.error (LayoutError.nullField FieldName.itemHeight)
        | some ih => prepareVals dw dh (props.documentMargin.getD (127 / 10)) iw ih

/-- The whole optimizer, parametrized by the row-counting loop (the only
point where the two source variants differ). The column loop runs first;
if either loop fails to finish within the fuel the call has not returned,
modelled as `none`. -/
def optimizeWith (rowCount : ℚ → ℚ → ℕ → Option ℕ) (fuel : ℕ) (props : LayoutRequest) :
    Option (Except LayoutError LayoutResult) :=
  match prepare props with
  | Except.error e => some (Except.error e)
  | Except.ok pre =>
    match countFit pre.usableWidth pre.itemWidth fuel,
          rowCount pre.usableHeight pre.itemHeight fuel with
    | some cols, some rows =>
      some (Except.ok
        { documentWidth := pre.usableWidth, documentHeight := pre.usableHeight,
          documentMargin := pre.documentMargin, itemWidth := pre.itemWidth,
          itemHeight := pre.itemHeight, documentWidthReal := pre.documentWidthReal,
          documentHeightReal := pre.documentHeightReal,
          maxRows := rows, maxColumns := cols })
    | _, _ => none

/-- `optimizeStepAndRepeat` of src/js/app.js (lines 53-126): both loops
use the permissive `>` break condition. -/
def optimizeStepAndRepeat : ℕ → LayoutRequest → Option (Except LayoutError LayoutResult) :=
  optimizeWith countFit

/-- `optimizeStepAndRepeat` of src/unnamed/part_000 (lines 68-141): the
row loop uses the strict `>=` break condition. -/
def optimizeStepAndRepeatPart000 : ℕ → LayoutRequest → Option (Except LayoutError LayoutResult) :=
  optimizeWith countFitStrict

/-- Orientation tag of a rendered candidate. -/
inductive Orientation
  | landscape
  | portrait
deriving DecidableEq

/-- Outcome of one commit: a single square-tagged result when the document
is square, otherwise the landscape and portrait candidates together with
the tag of the one surfaced for the single rendered preview. -/
inductive OrientationOutcome
  | square (result : LayoutResult)
  | rect (landscapeResult portraitResult : LayoutResult) (surfaced : Orientation)
deriving DecidableEq

/-- Total item count of a result, `maxRows * maxColumns`
(app.js lines 611-612). -/
def itemCount (r : LayoutResult) : ℕ :=
  r.maxRows * r.maxColumns

/-- The candidate a tag points at. -/
def surfacedOf (l p : LayoutResult) : Orientation → LayoutResult
  | Orientation.landscape => l
  | Orientation.portrait => p

/-- Core logic of `commitChanges` (app.js lines 544-618): a square
document is optimized once with the dimensions unchanged; otherwise the
optimizer runs as landscape with `(highest, lowest)` and then as portrait
with `(lowest, highest)`, the same margin and item dimensions in all
calls, and the portrait candidate is surfaced exactly when its item count
strictly exceeds the landscape one. A thrown optimization error aborts the
commit at the failing call. The source binds `highest` and `lowest` from
the comparison `docWidth > docHeight`; those bindings are inlined here. -/
def commitChanges (fuel : ℕ) (docWidth docHeight docMargin itemW itemH : ℚ) :
    Option (Except LayoutError OrientationOutcome) :=
  if docWidth = docHeight then
    match optimizeStepAndRepeat fuel (mkReq docWidth docHeight docMargin itemW itemH) with
    | none => none
    | some (Except.error e) => some (Except.error e)
    | some (Except.ok r) => some (Except.ok (OrientationOutcome.square r))
  else
    match optimizeStepAndRepeat fuel (mkReq (if docWidth > docHeight then docWidth else docHeight)
        (if docWidth > docHeight then docHeight else docWidth) docMargin itemW itemH) with
    | none => none
    | some (Except.error e) => some (Except.error e)
    | some (Except.ok lr) =>
      match optimizeStepAndRepeat fuel (mkReq (if docWidth > docHeight then docHeight else docWidth)
          (if docWidth > docHeight then docWidth else docHeight) docMargin itemW itemH) with
      | none => none
      | some (Except.error e) => some (Except.error e)
      | some (Except.ok pr) =>
        some (Except.ok (OrientationOutcome.rect lr pr
          (if itemCount pr > itemCount lr then Orientation.portrait else Orientation.landscape)))

/-!
Loop lemmas: partial correctness, termination, fuel monotonicity, and the
divergence of a zero item size.
-/

/-- If the permissive loop returns within its fuel from a state whose
accumulator holds `count` whole items inside the limit, the reported count
is maximal: the counted items fit and one more does not. -/
theorem countFitAux_spec (limit item : ℚ) (hitem : 0 < item) :
    ∀ (fuel : ℕ) (accum : ℚ) (count n : ℕ), 0 ≤ limit → accum = (count : ℚ) * item → accum ≤ limit →
      countFitAux limit item fuel accum count = some n →
      (n : ℚ) * item ≤ limit ∧ limit < ((n : ℚ) + 1) * item := by
  intro fuel
  induction fuel with
  | zero =>
    intro accum count n _ _ _ h
    simp [countFitAux] at h
  | succ f ih =>
    intro accum count n hlim hacc hle h
    rw [countFitAux, if_neg (not_not_intro hlim)] at h
    by_cases hc : limit < accum + item
    · rw [if_pos hc] at h
      obtain rfl : count = n := Option.some.inj h
      refine ⟨hacc ▸ hle, ?_⟩
      calc limit < accum + item := hc
        _ = ((count : ℚ) + 1) * item := by rw [hacc]; ring
    · rw [if_neg hc] at h
      refine ih (accum + item) (count + 1) n hlim ?_ (not_lt.mp hc) h
      rw [hacc]; push_cast; ring

/-- Strict-loop analogue: the counted items fit, and the boundary for one
more item is only non-strict, so an exact edge-aligned fit is missed. -/
theorem countFitStrictAux_spec (limit item : ℚ) (hitem : 0 < item) :
    ∀ (fuel : ℕ) (accum : ℚ) (count n : ℕ), 0 ≤ limit → accum = (count : ℚ) * item → accum ≤ limit →
      countFitStrictAux limit item fuel accum count = some n →
      (n : ℚ) * item ≤ limit ∧ limit ≤ ((n : ℚ) + 1) * item := by
  intro fuel
  induction fuel with
  | zero =>
    intro accum count n _ _ _ h
    simp [countFitStrictAux] at h
  | succ f ih =>
    intro accum count n hlim hacc hle h
    rw [countFitStrictAux, if_neg (not_not_intro hlim)] at h
    by_cases hc : limit ≤ accum + item
    · rw [if_pos hc] at h
      obtain rfl : count = n := Option.some.inj h
      refine ⟨hacc ▸ hle, ?_⟩
      calc limit ≤ accum + item := hc
        _ = ((count : ℚ) + 1) * item := by rw [hacc]; ring
    · rw [if_neg hc] at h
      refine ih (accum + item) (count + 1) n hlim ?_ (le_of_lt (not_le.mp hc)) h
      rw [hacc]; push_cast; ring

/-- The permissive loop terminates once the fuel covers the distance from
the accumulator to the limit in item-sized steps. -/
theorem countFitAux_isSome (limit item : ℚ) (hitem : 0 < item) :
    ∀ (fuel : ℕ) (accum : ℚ) (count : ℕ), 1 ≤ fuel → limit < accum + (fuel : ℚ) * item →
      (countFitAux limit item fuel accum count).isSome := by
  intro fuel
  induction fuel with
  | zero => intro accum count h _; omega
  | succ f ih =>
    intro accum count _ hbound
    rw [countFitAux]
    by_cases h0 : 0 ≤ limit
    · rw [if_neg (not_not_intro h0)]
      by_cases hc : limit < accum + item
      · rw [if_pos hc]; rfl
      · rw [if_neg hc]
        have hle := not_lt.mp hc
        rcases Nat.eq_zero_or_pos f with hf | hf
        · exfalso
          subst hf
          push_cast at hbound
          linarith
        · refine ih (accum + item) (count + 1) hf ?_
          have hcast : accum + ((f : ℚ) + 1) * item = accum + item + (f : ℚ) * item := by ring
          push_cast at hbound
          linarith [hbound, hcast.ge]
    · rw [if_pos h0]; rfl

/-- Strict-loop analogue of termination. -/
theorem countFitStrictAux_isSome (limit item : ℚ) (hitem : 0 < item) :
    ∀ (fuel : ℕ) (accum : ℚ) (count : ℕ), 1 ≤ fuel → limit < accum + (fuel : ℚ) * item →
      (countFitStrictAux limit item fuel accum count).isSome := by
  intro fuel
  induction fuel with
  | zero => intro accum count h _; omega
  | succ f ih =>
    intro accum count _ hbound
    rw [countFitStrictAux]
    by_cases h0 : 0 ≤ limit
    · rw [if_neg (not_not_intro h0)]
      by_cases hc : limit ≤ accum + item
      · rw [if_pos hc]; rfl
      · rw [if_neg hc]
        have hlt := not_le.mp hc
        rcases Nat.eq_zero_or_pos f with hf | hf
        · exfalso
          subst hf
          push_cast at hbound
          linarith
        · refine ih (accum + item) (count + 1) hf ?_
          push_cast at hbound
          linarith
    · rw [if_pos h0]; rfl

/-- A loop run that returned within some fuel returns the same count with
any larger fuel. -/
theorem countFitAux_mono (limit item : ℚ) :
    ∀ (fuel fuel2 : ℕ) (accum : ℚ) (count n : ℕ), fuel ≤ fuel2 →
      countFitAux limit item fuel accum count = some n →
      countFitAux limit item fuel2 accum count = some n := by
  intro fuel
  induction fuel with
  | zero =>
    intro fuel2 accum count n _ h
    simp [countFitAux] at h
  | succ f ih =>
    intro fuel2 accum count n hf h
    obtain ⟨g, rfl⟩ : ∃ g, fuel2 = g + 1 := ⟨fuel2 - 1, by omega⟩
    rw [countFitAux] at h ⊢
    by_cases h0 : 0 ≤ limit
    · rw [if_neg (not_not_intro h0)] at h ⊢
      by_cases hc : limit < accum + item
      · rwa [if_pos hc] at h ⊢
      · rw [if_neg hc] at h ⊢
        exact ih g (accum + item) (count + 1) n (by omega) h
    · rwa [if_pos h0] at h ⊢

/-- Exact evaluation of the permissive loop: if `n` items fit and `n + 1`
do not, any fuel beyond `n` yields exactly `n`. -/
theorem countFit_eq (limit item : ℚ) (fuel n : ℕ) (hitem : 0 < item) (hlim : 0 ≤ limit)
    (h1 : (n : ℚ) * item ≤ limit) (h2 : limit < ((n : ℚ) + 1) * item) (hfuel : n < fuel) :
    countFit limit item fuel = some n := by
  suffices haux : ∀ (m fuel2 : ℕ) (accum : ℚ) (count : ℕ), accum = (count : ℚ) * item →
      (m : ℚ) * item ≤ limit - accum → limit - accum < ((m : ℚ) + 1) * item → m < fuel2 →
      countFitAux limit item fuel2 accum count = some (count + m) by
    have h := haux n fuel 0 0 (by ring) (by linarith) (by linarith) hfuel
    rw [countFit, h, Nat.zero_add]
  intro m
  induction m with
  | zero =>
    intro fuel2 accum count hacc hlow hhigh hfuel2
    obtain ⟨g, rfl⟩ : ∃ g, fuel2 = g + 1 := ⟨fuel2 - 1, by omega⟩
    have h0 : 0 ≤ limit := by
      have hacc0 : 0 ≤ accum := by
        rw [hacc]
        positivity
      push_cast at hlow
      linarith
    rw [countFitAux, if_neg (not_not_intro h0), if_pos (by push_cast at hhigh; linarith)]
    rfl
  | succ m ih =>
    intro fuel2 accum count hacc hlow hhigh hfuel2
    obtain ⟨g, rfl⟩ : ∃ g, fuel2 = g + 1 := ⟨fuel2 - 1, by omega⟩
    have h0 : 0 ≤ limit := by
      have hacc0 : 0 ≤ accum := by
        rw [hacc]
        positivity
      have : (0 : ℚ) ≤ ((m : ℚ) + 1) * item := by positivity
      push_cast at hlow
      nlinarith
    have hstep : item ≤ limit - accum := by
      have : item ≤ ((m : ℚ) + 1) * item := by nlinarith [Nat.cast_nonneg (α := ℚ) m]
      push_cast at hlow
      linarith
    rw [countFitAux, if_neg (not_not_intro h0), if_neg (by linarith)]
    have hres := ih g (accum + item) (count + 1) (by rw [hacc]; push_cast; ring)
      (by push_cast at hlow ⊢; linarith) (by push_cast at hhigh ⊢; linarith) (by omega)
    rw [hres]
    congr 1
    omega

/-- Exact evaluation of the strict loop: the loop continues only while the
next accumulator value stays strictly below the limit. -/
theorem countFitStrict_eq (limit item : ℚ) (fuel n : ℕ) (hitem : 0 < item) (hlim : 0 ≤ limit)
    (h1 : (n : ℚ) * item < limit ∨ n = 0) (h2 : limit ≤ ((n : ℚ) + 1) * item) (hfuel : n < fuel) :
    countFitStrict limit item fuel = some n := by
  suffices haux : ∀ (m fuel2 : ℕ) (accum : ℚ) (count : ℕ), accum = (count : ℚ) * item →
      ((m : ℚ) * item < limit - accum ∨ (m = 0 ∧ 0 ≤ limit - accum)) →
      limit - accum ≤ ((m : ℚ) + 1) * item → m < fuel2 →
      countFitStrictAux limit item fuel2 accum count = some (count + m) by
    have hstart : ((n : ℚ) * item < limit - 0 ∨ (n = 0 ∧ 0 ≤ limit - 0)) := by
      rcases h1 with h | h
      · exact Or.inl (by linarith)
      · exact Or.inr ⟨h, by linarith⟩
    have h := haux n fuel 0 0 (by ring) hstart (by linarith) hfuel
    rw [countFitStrict, h, Nat.zero_add]
  intro m
  induction m with
  | zero =>
    intro fuel2 accum count hacc hlow hhigh hfuel2
    obtain ⟨g, rfl⟩ : ∃ g, fuel2 = g + 1 := ⟨fuel2 - 1, by omega⟩
    have hd : 0 ≤ limit - accum := by
      rcases hlow with h | h
      · push_cast at h
        linarith
      · exact h.2
    have h0 : 0 ≤ limit := by
      have hacc0 : 0 ≤ accum := by
        rw [hacc]
        positivity
      linarith
    rw [countFitStrictAux, if_neg (not_not_intro h0), if_pos (by push_cast at hhigh; linarith)]
    rfl
  | succ m ih =>
    intro fuel2 accum count hacc hlow hhigh hfuel2
    obtain ⟨g, rfl⟩ : ∃ g, fuel2 = g + 1 := ⟨fuel2 - 1, by omega⟩
    have hlow2 : ((m : ℚ) + 1) * item < limit - accum := by
      rcases hlow with h | h
      · push_cast at h
        linarith
      · exact absurd h.1 (Nat.succ_ne_zero m)
    have hstep : item < limit - accum := by
      nlinarith [Nat.cast_nonneg (α := ℚ) m]
    have h0 : 0 ≤ limit := by
      have hacc0 : 0 ≤ accum := by
        rw [hacc]
        positivity
      linarith
    rw [countFitStrictAux, if_neg (not_not_intro h0), if_neg (by linarith)]
    have hres := ih g (accum + item) (count + 1) (by rw [hacc]; push_cast; ring)
      (Or.inl (by linarith)) (by push_cast at hhigh ⊢; linarith) (by omega)
    rw [hres]
    congr 1
    omega

/-- With a zero item size and a nonnegative limit the permissive loop
never terminates: the accumulator never moves and the break guard never
fires, so every fuel is exhausted. -/
theorem countFitAux_zero_item (limit : ℚ) (h0 : 0 ≤ limit) :
    ∀ (fuel count : ℕ), countFitAux limit 0 fuel 0 count = none := by
  intro fuel
  induction fuel with
  | zero => intro count; rfl
  | succ f ih =>
    intro count
    rw [countFitAux, if_neg (not_not_intro h0), if_neg (by simpa using not_lt.mpr h0)]
    simpa using ih (count + 1)

/-!
Helper lemmas about the validation phase and the assembled optimizer.
-/

/-- The sanitized fields stored by a successful validation. -/
theorem prepareVals_ok_fields (dw dh dm iw ih : ℚ) (pre : Prepared)
    (h : prepareVals dw dh dm iw ih = Except.ok pre) :
    pre.documentMargin = |dm| ∧ pre.itemWidth = |iw| ∧ pre.itemHeight = |ih| ∧
      pre.documentWidthReal = |dw| ∧ pre.documentHeightReal = |dh| := by
  unfold prepareVals at h
  by_cases hdm : |dm| ≠ 0
  · rw [if_pos hdm] at h
    by_cases hw : |dw| - |dm| * 2 ≤ 0
    · rw [if_pos hw] at h
      exact absurd h (by simp)
    · rw [if_neg hw] at h
      by_cases hh : |dh| - |dm| * 2 ≤ 0
      · rw [if_pos hh] at h
        exact absurd h (by simp)
      · rw [if_neg hh] at h
        obtain rfl := Except.ok.inj h
        exact ⟨rfl, rfl, rfl, rfl, rfl⟩
  · rw [if_neg hdm] at h
    obtain rfl := Except.ok.inj h
    exact ⟨rfl, rfl, rfl, rfl, rfl⟩

/-- With a nonzero margin, a successful validation stores the strictly
positive margin-reduced dimensions. -/
theorem prepareVals_ok_margin (dw dh dm iw ih : ℚ) (pre : Prepared) (hdm : dm ≠ 0)
    (h : prepareVals dw dh dm iw ih = Except.ok pre) :
    pre.usableWidth = |dw| - |dm| * 2 ∧ pre.usableHeight = |dh| - |dm| * 2 ∧
      0 < pre.usableWidth ∧ 0 < pre.usableHeight := by
  have hdm2 : |dm| ≠ 0 := fun hc => hdm (abs_eq_zero.mp hc)
  unfold prepareVals at h
  rw [if_pos hdm2] at h
  by_cases hw : |dw| - |dm| * 2 ≤ 0
  · rw [if_pos hw] at h
    exact absurd h (by simp)
  · rw [if_neg hw] at h
    by_cases hh : |dh| - |dm| * 2 ≤ 0
    · rw [if_pos hh] at h
      exact absurd h (by simp)
    · rw [if_neg hh] at h
      obtain rfl := Except.ok.inj h
      exact ⟨rfl, rfl, not_le.mp hw, not_le.mp hh⟩

/-- With a zero margin, validation always succeeds and keeps the
absolute-valued dimensions unchanged. -/
theorem prepareVals_zero_margin (dw dh iw ih : ℚ) :
    prepareVals dw dh 0 iw ih = Except.ok
      { usableWidth := |dw|, usableHeight := |dh|, documentMargin := 0,
        itemWidth := |iw|, itemHeight := |ih|,
        documentWidthReal := |dw|, documentHeightReal := |dh| } := by
  unfold prepareVals
  rw [if_neg (by simp)]
  simp

/-- Width error of the margin check: fires exactly when the usable width
is consumed. -/
theorem prepareVals_width_error (dw dh dm iw ih : ℚ) (hdm : dm ≠ 0)
    (hw : |dw| - |dm| * 2 ≤ 0) :
    prepareVals dw dh dm iw ih = Except.error (LayoutError.tooMuchMargin Axis.width) := by
  have hdm2 : |dm| ≠ 0 := fun hc => hdm (abs_eq_zero.mp hc)
  unfold prepareVals
  rw [if_pos hdm2, if_pos hw]

/-- Height error of the margin check: fires when the width survives but
the usable height is consumed. -/
theorem prepareVals_height_error (dw dh dm iw ih : ℚ) (hdm : dm ≠ 0)
    (hw : 0 < |dw| - |dm| * 2) (hh : |dh| - |dm| * 2 ≤ 0) :
    prepareVals dw dh dm iw ih = Except.error (LayoutError.tooMuchMargin Axis.height) := by
  have hdm2 : |dm| ≠ 0 := fun hc => hdm (abs_eq_zero.mp hc)
  unfold prepareVals
  rw [if_pos hdm2, if_neg (not_le.mpr hw), if_pos hh]

/-- A successful validation never stores a negative usable dimension. -/
theorem prepareVals_ok_nonneg (dw dh dm iw ih : ℚ) (pre : Prepared)
    (h : prepareVals dw dh dm iw ih = Except.ok pre) :
    0 ≤ pre.usableWidth ∧ 0 ≤ pre.usableHeight := by
  by_cases hdm : dm = 0
  · subst hdm
    rw [prepareVals_zero_margin] at h
    obtain rfl := Except.ok.inj h
    exact ⟨abs_nonneg dw, abs_nonneg dh⟩
  · obtain ⟨_, _, hw, hh⟩ := prepareVals_ok_margin dw dh dm iw ih pre hdm h
    exact ⟨le_of_lt hw, le_of_lt hh⟩

/-- A validation error with a zero margin can only be a null field, never
a margin error. -/
theorem prepareVals_zero_margin_no_margin_error (dw dh iw ih : ℚ) (ax : Axis) :
    prepareVals dw dh 0 iw ih ≠ Except.error (LayoutError.tooMuchMargin ax) := by
  rw [prepareVals_zero_margin]
  exact fun hc => Except.noConfusion hc

/-- Validation on a request with all five fields present reduces to the
value-level validation. -/
theorem prepare_eq_vals (props : LayoutRequest) (dw dh iw ih : ℚ)
    (h1 : props.documentWidth = some dw) (h2 : props.documentHeight = some dh)
    (h4 : props.itemWidth = some iw) (h5 : props.itemHeight = some ih) :
    prepare props = prepareVals dw dh (props.documentMargin.getD (127 / 10)) iw ih := by
  unfold prepare
  rw [h1, h2, h4, h5]

/-- A null `documentWidth` is reported first. -/
theorem prepare_null_documentWidth (props : LayoutRequest)
    (h : props.documentWidth = none) :
    prepare props = Except.error (LayoutError.nullField FieldName.documentWidth) := by
  unfold prepare
  rw [h]

/-- A null `documentHeight` is reported when `documentWidth` is present. -/
theorem prepare_null_documentHeight (props : LayoutRequest) (dw : ℚ)
    (h1 : props.documentWidth = some dw) (h : props.documentHeight = none) :
    prepare props = Except.error (LayoutError.nullField FieldName.documentHeight) := by
  unfold prepare
  rw [h1, h]

/-- A null `itemWidth` is reported when both document dimensions are
present. -/
theorem prepare_null_itemWidth (props : LayoutRequest) (dw dh : ℚ)
    (h1 : props.documentWidth = some dw) (h2 : props.documentHeight = some dh)
    (h : props.itemWidth = none) :
    prepare props = Except.error (LayoutError.nullField FieldName.itemWidth) := by
  unfold prepare
  rw [h1, h2, h]

/-- A null `itemHeight` is reported when the other three checked fields
are present. -/
theorem prepare_null_itemHeight (props : LayoutRequest) (dw dh iw : ℚ)
    (h1 : props.documentWidth = some dw) (h2 : props.documentHeight = some dh)
    (h4 : props.itemWidth = some iw) (h : props.itemHeight = none) :
    prepare props = Except.error (LayoutError.nullField FieldName.itemHeight) := by
  unfold prepare
  rw [h1, h2, h4, h]

/-- A successful validation needs the four checked fields present. -/
theorem prepare_ok_present (props : LayoutRequest) (pre : Prepared)
    (h : prepare props = Except.ok pre) :
    ∃ dw dh iw ih, props.documentWidth = some dw ∧ props.documentHeight = some dh ∧
      props.itemWidth = some iw ∧ props.itemHeight = some ih := by
  unfold prepare at h
  cases h1 : props.documentWidth with
  | none => rw [h1] at h; exact absurd h (by simp)
  | some dw =>
    rw [h1] at h
    cases h2 : props.documentHeight with
    | none => rw [h2] at h; exact absurd h (by simp)
    | some dh =>
      rw [h2] at h
      cases h4 : props.itemWidth with
      | none => rw [h4] at h; exact absurd h (by simp)
      | some iw =>
        rw [h4] at h
        cases h5 : props.itemHeight with
        | none => rw [h5] at h; exact absurd h (by simp)
        | some ih => exact ⟨dw, dh, iw, ih, rfl, rfl, rfl, rfl⟩

/-- A validation error surfaces unchanged as the thrown result of the
optimizer, before any loop runs. -/
theorem optimizeWith_prepare_error (rowCount : ℚ → ℚ → ℕ → Option ℕ) (fuel : ℕ)
    (props : LayoutRequest) (e : LayoutError) (h : prepare props = Except.error e) :
    optimizeWith rowCount fuel props = some (Except.error e) := by
  unfold optimizeWith
  rw [h]

/-- Conversely, the optimizer throws only what validation throws. -/
theorem optimizeWith_error_inv (rowCount : ℚ → ℚ → ℕ → Option ℕ) (fuel : ℕ)
    (props : LayoutRequest) (e : LayoutError)
    (h : optimizeWith rowCount fuel props = some (Except.error e)) :
    prepare props = Except.error e := by
  unfold optimizeWith at h
  cases hpre : prepare props with
  | error e2 =>
    rw [hpre] at h
    obtain rfl := Except.error.inj (Option.some.inj h)
    rfl
  | ok pre =>
    rw [hpre] at h
    dsimp only at h
    cases hc : countFit pre.usableWidth pre.itemWidth fuel with
    | none => rw [hc] at h; exact absurd h (by simp)
    | some cols =>
      cases hr : rowCount pre.usableHeight pre.itemHeight fuel with
      | none => rw [hc, hr] at h; exact absurd h (by simp)
      | some rows =>
        rw [hc, hr] at h
        exact absurd (Option.some.inj h) (by simp)

/-- Inversion of a returned result: validation succeeded, both loops
finished within the fuel, and the result is the prepared state plus the
two counts. -/
theorem optimizeWith_ok_inv (rowCount : ℚ → ℚ → ℕ → Option ℕ) (fuel : ℕ)
    (props : LayoutRequest) (r : LayoutResult)
    (h : optimizeWith rowCount fuel props = some (Except.ok r)) :
    ∃ pre cols rows, prepare props = Except.ok pre ∧
      countFit pre.usableWidth pre.itemWidth fuel = some cols ∧
      rowCount pre.usableHeight pre.itemHeight fuel = some rows ∧
      r = { documentWidth := pre.usableWidth, documentHeight := pre.usableHeight,
            documentMargin := pre.documentMargin, itemWidth := pre.itemWidth,
            itemHeight := pre.itemHeight, documentWidthReal := pre.documentWidthReal,
            documentHeightReal := pre.documentHeightReal,
            maxRows := rows, maxColumns := cols } := by
  unfold optimizeWith at h
  cases hpre : prepare props with
  | error e =>
    rw [hpre] at h
    exact absurd (Option.some.inj h) (by simp)
  | ok pre =>
    rw [hpre] at h
    dsimp only at h
    cases hc : countFit pre.usableWidth pre.itemWidth fuel with
    | none => rw [hc] at h; exact absurd h (by simp)
    | some cols =>
      cases hr : rowCount pre.usableHeight pre.itemHeight fuel with
      | none => rw [hc, hr] at h; exact absurd h (by simp)
      | some rows =>
        rw [hc, hr] at h
        exact ⟨pre, cols, rows, rfl, hc, hr, (Except.ok.inj (Option.some.inj h)).symm⟩

/-- Assembly of a returned result from a successful validation and two
finished loops. -/
theorem optimizeWith_ok (rowCount : ℚ → ℚ → ℕ → Option ℕ) (fuel : ℕ)
    (props : LayoutRequest) (pre : Prepared) (cols rows : ℕ)
    (hpre : prepare props = Except.ok pre)
    (hc : countFit pre.usableWidth pre.itemWidth fuel = some cols)
    (hr : rowCount pre.usableHeight pre.itemHeight fuel = some rows) :
    optimizeWith rowCount fuel props = some (Except.ok
      { documentWidth := pre.usableWidth, documentHeight := pre.usableHeight,
        documentMargin := pre.documentMargin, itemWidth := pre.itemWidth,
        itemHeight := pre.itemHeight, documentWidthReal := pre.documentWidthReal,
        documentHeightReal := pre.documentHeightReal,
        maxRows := rows, maxColumns := cols }) := by
  unfold optimizeWith
  rw [hpre]
  dsimp only
  rw [hc, hr]

/-- The app.js optimizer is monotone in fuel: once it returns, more fuel
returns the same value. -/
theorem optimizeStepAndRepeat_mono (fuel fuel2 : ℕ) (props : LayoutRequest)
    (x : Except LayoutError LayoutResult) (hf : fuel ≤ fuel2)
    (h : optimizeStepAndRepeat fuel props = some x) :
    optimizeStepAndRepeat fuel2 props = some x := by
  cases x with
  | error e =>
    exact optimizeWith_prepare_error countFit fuel2 props e
      (optimizeWith_error_inv countFit fuel props e h)
  | ok r =>
    obtain ⟨pre, cols, rows, hpre, hc, hr, rfl⟩ := optimizeWith_ok_inv countFit fuel props r h
    exact optimizeWith_ok countFit fuel2 props pre cols rows hpre
      (countFitAux_mono pre.usableWidth pre.itemWidth fuel fuel2 0 0 cols hf hc)
      (countFitAux_mono pre.usableHeight pre.itemHeight fuel fuel2 0 0 rows hf hr)

/-!
Evaluation lemmas for concrete requests.
-/

/-- Validation result for nonnegative inputs whose effective margin is
zero: the dimensions pass through unchanged. -/
theorem prepare_eval_zero (props : LayoutRequest) (dw dh iw ih : ℚ)
    (h1 : props.documentWidth = some dw) (h2 : props.documentHeight = some dh)
    (hm : props.documentMargin.getD (127 / 10) = 0)
    (h4 : props.itemWidth = some iw) (h5 : props.itemHeight = some ih)
    (hdw : 0 ≤ dw) (hdh : 0 ≤ dh) (hiw : 0 ≤ iw) (hih : 0 ≤ ih) :
    prepare props = Except.ok
      { usableWidth := dw, usableHeight := dh, documentMargin := 0,
        itemWidth := iw, itemHeight := ih,
        documentWidthReal := dw, documentHeightReal := dh } := by
  rw [prepare_eq_vals props dw dh iw ih h1 h2 h4 h5, hm, prepareVals_zero_margin,
    abs_of_nonneg hdw, abs_of_nonneg hdh, abs_of_nonneg hiw, abs_of_nonneg hih]

/-- Validation result for nonnegative inputs with a positive margin small
enough to leave both usable dimensions positive. -/
theorem prepare_eval_pos (props : LayoutRequest) (dw dh dm iw ih : ℚ)
    (h1 : props.documentWidth = some dw) (h2 : props.documentHeight = some dh)
    (hm : props.documentMargin.getD (127 / 10) = dm)
    (h4 : props.itemWidth = some iw) (h5 : props.itemHeight = some ih)
    (hdw : 0 ≤ dw) (hdh : 0 ≤ dh) (hdm : 0 < dm) (hiw : 0 ≤ iw) (hih : 0 ≤ ih)
    (hw : 0 < dw - dm * 2) (hh : 0 < dh - dm * 2) :
    prepare props = Except.ok
      { usableWidth := dw - dm * 2, usableHeight := dh - dm * 2, documentMargin := dm,
        itemWidth := iw, itemHeight := ih,
        documentWidthReal := dw, documentHeightReal := dh } := by
  rw [prepare_eq_vals props dw dh iw ih h1 h2 h4 h5, hm]
  unfold prepareVals
  rw [abs_of_nonneg hdw, abs_of_nonneg hdh, abs_of_nonneg (le_of_lt hdm),
    abs_of_nonneg hiw, abs_of_nonneg hih,
    if_pos (ne_of_gt hdm), if_neg (not_le.mpr hw), if_neg (not_le.mpr hh)]

/-- A validated request with both loops finishing produces a result. -/
theorem optimizeWith_isSome_of (rowCount : ℚ → ℚ → ℕ → Option ℕ) (fuel : ℕ)
    (props : LayoutRequest) (pre : Prepared) (hpre : prepare props = Except.ok pre)
    (hc : (countFit pre.usableWidth pre.itemWidth fuel).isSome)
    (hr : (rowCount pre.usableHeight pre.itemHeight fuel).isSome) :
    (optimizeWith rowCount fuel props).isSome := by
  obtain ⟨cols, hc2⟩ := Option.isSome_iff_exists.mp hc
  obtain ⟨rows, hr2⟩ := Option.isSome_iff_exists.mp hr
  rw [optimizeWith_ok rowCount fuel props pre cols rows hpre hc2 hr2]
  rfl

/-- A missing margin is replaced by the default before anything else reads
it, so validation cannot tell a missing margin from an explicit 12.7. -/
theorem prepare_margin_default (props : LayoutRequest) (h : props.documentMargin = none) :
    prepare props = prepare { props with documentMargin := some (127 / 10) } := by
  unfold prepare
  dsimp only
  cases h1 : props.documentWidth with
  | none => rfl
  | some dw =>
    cases h2 : props.documentHeight with
    | none => rfl
    | some dh =>
      cases h4 : props.itemWidth with
      | none => rfl
      | some iw =>
        cases h5 : props.itemHeight with
        | none => rfl
        | some ih =>
          rw [h]
          rfl

/-- The optimizer likewise cannot tell a missing margin from an explicit
12.7. -/
theorem optimize_margin_default (rowCount : ℚ → ℚ → ℕ → Option ℕ) (fuel : ℕ)
    (props : LayoutRequest) (h : props.documentMargin = none) :
    optimizeWith rowCount fuel props =
      optimizeWith rowCount fuel { props with documentMargin := some (127 / 10) } := by
  unfold optimizeWith
  rw [prepare_margin_default props h]

/-!
Concrete results used by the counterexamples and witnesses below.
-/

/-- Result of part_000 on a 100 by 100 document, zero margin, 10 by 10
items: ten columns but only nine rows, the exact tenth row fit being
rejected by the strict row loop. -/
def resPart100 : LayoutResult :=
  { documentWidth := 100, documentHeight := 100, documentMargin := 0,
    itemWidth := 10, itemHeight := 10, documentWidthReal := 100,
    documentHeightReal := 100, maxRows := 9, maxColumns := 10 }

/-- Result of both variants on the default 330 by 488 document with the
default margin and 90 by 50 items. -/
def res330 : LayoutResult :=
  { documentWidth := 1523 / 5, documentHeight := 2313 / 5, documentMargin := 127 / 10,
    itemWidth := 90, itemHeight := 50, documentWidthReal := 330,
    documentHeightReal := 488, maxRows := 9, maxColumns := 3 }

/-- Result of app.js on a 100 by 100 document with the default margin and
10 by 10 items: the stored document width is the reduced 74.6, not the
caller input 100. -/
def res100 : LayoutResult :=
  { documentWidth := 373 / 5, documentHeight := 373 / 5, documentMargin := 127 / 10,
    itemWidth := 10, itemHeight := 10, documentWidthReal := 100,
    documentHeightReal := 100, maxRows := 7, maxColumns := 7 }

/-- Result of app.js on a negated width input: every retained field is the
magnitude, including the Real copy. -/
def resNeg100 : LayoutResult :=
  { documentWidth := 100, documentHeight := 100, documentMargin := 0,
    itemWidth := 10, itemHeight := 10, documentWidthReal := 100,
    documentHeightReal := 100, maxRows := 10, maxColumns := 10 }

theorem eval_part000_100 :
    optimizeStepAndRepeatPart000 32 (mkReq 100 100 0 10 10) = some (Except.ok resPart100) := by
  have hpre := prepare_eval_zero (mkReq 100 100 0 10 10) 100 100 10 10 rfl rfl rfl rfl rfl
    (by norm_num) (by norm_num) (by norm_num) (by norm_num)
  have hc : countFit 100 10 32 = some 10 :=
    countFit_eq 100 10 32 10 (by norm_num) (by norm_num) (by norm_num) (by norm_num) (by norm_num)
  have hr : countFitStrict 100 10 32 = some 9 :=
    countFitStrict_eq 100 10 32 9 (by norm_num) (by norm_num) (Or.inl (by norm_num))
      (by norm_num) (by norm_num)
  exact optimizeWith_ok countFitStrict 32 _ _ 10 9 hpre hc hr

theorem eval_app330 :
    optimizeStepAndRepeat 32 (mkReq 330 488 (127 / 10) 90 50) = some (Except.ok res330) := by
  have hpre := prepare_eval_pos (mkReq 330 488 (127 / 10) 90 50) 330 488 (127 / 10) 90 50
    rfl rfl rfl rfl rfl (by norm_num) (by norm_num) (by norm_num) (by norm_num) (by norm_num)
    (by norm_num) (by norm_num)
  have hc : countFit (330 - 127 / 10 * 2) 90 32 = some 3 :=
    countFit_eq _ 90 32 3 (by norm_num) (by norm_num) (by norm_num) (by norm_num) (by norm_num)
  have hr : countFit (488 - 127 / 10 * 2) 50 32 = some 9 :=
    countFit_eq _ 50 32 9 (by norm_num) (by norm_num) (by norm_num) (by norm_num) (by norm_num)
  have h := optimizeWith_ok countFit 32 _ _ 3 9 hpre hc hr
  unfold optimizeStepAndRepeat
  rw [h]
  norm_num [res330]

theorem eval_part000_330 :
    optimizeStepAndRepeatPart000 32 (mkReq 330 488 (127 / 10) 90 50) = some (Except.ok res330) := by
  have hpre := prepare_eval_pos (mkReq 330 488 (127 / 10) 90 50) 330 488 (127 / 10) 90 50
    rfl rfl rfl rfl rfl (by norm_num) (by norm_num) (by norm_num) (by norm_num) (by norm_num)
    (by norm_num) (by norm_num)
  have hc : countFit (330 - 127 / 10 * 2) 90 32 = some 3 :=
    countFit_eq _ 90 32 3 (by norm_num) (by norm_num) (by norm_num) (by norm_num) (by norm_num)
  have hr : countFitStrict (488 - 127 / 10 * 2) 50 32 = some 9 :=
    countFitStrict_eq _ 50 32 9 (by norm_num) (by norm_num) (Or.inl (by norm_num))
      (by norm_num) (by norm_num)
  have h := optimizeWith_ok countFitStrict 32 _ _ 3 9 hpre hc hr
  unfold optimizeStepAndRepeatPart000
  rw [h]
  norm_num [res330]

theorem eval_app100_margin (fuel : ℕ) (hfuel : 8 ≤ fuel) :
    optimizeStepAndRepeat fuel (mkReq 100 100 (127 / 10) 10 10) = some (Except.ok res100) := by
  have hpre := prepare_eval_pos (mkReq 100 100 (127 / 10) 10 10) 100 100 (127 / 10) 10 10
    rfl rfl rfl rfl rfl (by norm_num) (by norm_num) (by norm_num) (by norm_num) (by norm_num)
    (by norm_num) (by norm_num)
  have hc : countFit (100 - 127 / 10 * 2) 10 8 = some 7 :=
    countFit_eq _ 10 8 7 (by norm_num) (by norm_num) (by norm_num) (by norm_num) (by norm_num)
  have h := optimizeWith_ok countFit 8 _ _ 7 7 hpre hc hc
  have h8 : optimizeStepAndRepeat 8 (mkReq 100 100 (127 / 10) 10 10) = some (Except.ok res100) := by
    unfold optimizeStepAndRepeat
    rw [h]
    norm_num [res100]
  exact optimizeStepAndRepeat_mono 8 fuel _ _ hfuel h8

theorem eval_appNeg100 :
    optimizeStepAndRepeat 16 (mkReq (-100) 100 0 10 10) = some (Except.ok resNeg100) := by
  have hpre : prepare (mkReq (-100) 100 0 10 10) = Except.ok
      { usableWidth := 100, usableHeight := 100, documentMargin := 0,
        itemWidth := 10, itemHeight := 10,
        documentWidthReal := 100, documentHeightReal := 100 } := by
    rw [prepare_eq_vals _ (-100) 100 10 10 rfl rfl rfl rfl]
    have hgd : (mkReq (-100) 100 0 10 10).documentMargin.getD (127 / 10) = 0 := rfl
    rw [hgd, prepareVals_zero_margin,
      abs_of_nonpos (by norm_num : (-100 : ℚ) ≤ 0),
      abs_of_nonneg (by norm_num : (0 : ℚ) ≤ 100),
      abs_of_nonneg (by norm_num : (0 : ℚ) ≤ 10)]
    norm_num
  have hc : countFit 100 10 16 = some 10 :=
    countFit_eq 100 10 16 10 (by norm_num) (by norm_num) (by norm_num) (by norm_num) (by norm_num)
  exact optimizeWith_ok countFit 16 _ _ 10 10 hpre hc hc

/-!
The claims.
-/

/-- Claim C1, counterexample. The claim asserts the two-sided maximality
bound, an exact edge-aligned fit included, in both source variants. In the
part_000 variant, a valid 100 by 100 zero-margin request with 10 by 10
items yields `maxRows = 9`, and the upper bound `(maxRows + 1) * itemHeight
> documentHeight` fails there: the tenth row fits exactly and the strict
row loop of part_000 rejects it. -/
theorem c1_counterexample :
    optimizeStepAndRepeatPart000 32 (mkReq 100 100 0 10 10) = some (Except.ok resPart100)
    ∧ resPart100.maxRows = 9
    ∧ ¬ (((resPart100.maxRows : ℚ) + 1) * resPart100.itemHeight > resPart100.documentHeight) := by
  refine ⟨eval_part000_100, rfl, ?_⟩
  norm_num [resPart100]

/-- Claim C1 (amended): for every request that passes validation with
nonzero item dimensions, the app.js variant satisfies the two-sided
maximality bound on both axes (exact edge-aligned fits counted), and the
part_000 variant satisfies it for columns; for part_000 rows the packing
still fits, but the upper bound is only non-strict: an exact edge-aligned
row fit is counted one short by its strict row loop. -/
theorem c1_amended (fuel : ℕ) (req : LayoutRequest) (iw ih : ℚ) (r rp : LayoutResult)
    (hiw : req.itemWidth = some iw) (hiw0 : iw ≠ 0)
    (hih : req.itemHeight = some ih) (hih0 : ih ≠ 0)
    (h : optimizeStepAndRepeat fuel req = some (Except.ok r))
    (hp : optimizeStepAndRepeatPart000 fuel req = some (Except.ok rp)) :
    ((r.maxColumns : ℚ) * r.itemWidth ≤ r.documentWidth
      ∧ r.documentWidth < ((r.maxColumns : ℚ) + 1) * r.itemWidth)
    ∧ ((r.maxRows : ℚ) * r.itemHeight ≤ r.documentHeight
      ∧ r.documentHeight < ((r.maxRows : ℚ) + 1) * r.itemHeight)
    ∧ ((rp.maxColumns : ℚ) * rp.itemWidth ≤ rp.documentWidth
      ∧ rp.documentWidth < ((rp.maxColumns : ℚ) + 1) * rp.itemWidth)
    ∧ ((rp.maxRows : ℚ) * rp.itemHeight ≤ rp.documentHeight
      ∧ rp.documentHeight ≤ ((rp.maxRows : ℚ) + 1) * rp.itemHeight) := by
  obtain ⟨pre, cols, rows, hpre, hc, hr, rfl⟩ := optimizeWith_ok_inv countFit fuel req r h
  obtain ⟨pre2, cols2, rows2, hpre2, hc2, hr2, rfl⟩ :=
    optimizeWith_ok_inv countFitStrict fuel req rp hp
  obtain rfl : pre = pre2 := Except.ok.inj (hpre ▸ hpre2)
  obtain ⟨dw, dh, iw2, ih2, h1, h2, h4, h5⟩ := prepare_ok_present req pre hpre
  rw [prepare_eq_vals req dw dh iw ih h1 h2 hiw hih] at hpre
  obtain ⟨hnw, hnh⟩ := prepareVals_ok_nonneg _ _ _ _ _ pre hpre
  obtain ⟨_, hfw, hfh, _, _⟩ := prepareVals_ok_fields _ _ _ _ _ pre hpre
  have hiwpos : 0 < pre.itemWidth := hfw ▸ abs_pos.mpr hiw0
  have hihpos : 0 < pre.itemHeight := hfh ▸ abs_pos.mpr hih0
  have hcols := countFitAux_spec pre.usableWidth pre.itemWidth hiwpos fuel 0 0 cols hnw
    (by norm_num) hnw hc
  have hrows := countFitAux_spec pre.usableHeight pre.itemHeight hihpos fuel 0 0 rows hnh
    (by norm_num) hnh hr
  have hcols2 := countFitAux_spec pre.usableWidth pre.itemWidth hiwpos fuel 0 0 cols2 hnw
    (by norm_num) hnw hc2
  have hrows2 := countFitStrictAux_spec pre.usableHeight pre.itemHeight hihpos fuel 0 0 rows2 hnh
    (by norm_num) hnh hr2
  exact ⟨hcols, hrows, hcols2, hrows2⟩

/-- Claim C1, witness at the default inputs 330 by 488, margin 12.7,
items 90 by 50: three columns and nine rows, maximal on both axes in both
variants. -/
theorem c1_amended_witness :
    (((res330.maxColumns : ℚ) * res330.itemWidth ≤ res330.documentWidth
      ∧ res330.documentWidth < ((res330.maxColumns : ℚ) + 1) * res330.itemWidth)
    ∧ ((res330.maxRows : ℚ) * res330.itemHeight ≤ res330.documentHeight
      ∧ res330.documentHeight < ((res330.maxRows : ℚ) + 1) * res330.itemHeight)
    ∧ ((res330.maxColumns : ℚ) * res330.itemWidth ≤ res330.documentWidth
      ∧ res330.documentWidth < ((res330.maxColumns : ℚ) + 1) * res330.itemWidth)
    ∧ ((res330.maxRows : ℚ) * res330.itemHeight ≤ res330.documentHeight
      ∧ res330.documentHeight ≤ ((res330.maxRows : ℚ) + 1) * res330.itemHeight)) :=
  c1_amended 32 (mkReq 330 488 (127 / 10) 90 50) 90 50 res330 res330
    rfl (by norm_num) rfl (by norm_num) eval_app330 eval_part000_330

/-- Claim C2: the claim is right and the code is wrong. The source has no
item-size check at all: with `itemWidth = 0` on an otherwise valid request
the column loop never terminates, because the accumulator gains zero each
pass and the break guard `accum + itemWidth > documentWidth` can never
fire, so no error of any kind is thrown and no result is returned, for any
amount of fuel. -/
theorem c2_code_bug (fuel : ℕ) :
    optimizeStepAndRepeat fuel (mkReq 100 100 0 0 10) = none := by
  have hpre := prepare_eval_zero (mkReq 100 100 0 0 10) 100 100 0 10 rfl rfl rfl rfl rfl
    (by norm_num) (by norm_num) (by norm_num) (by norm_num)
  unfold optimizeStepAndRepeat optimizeWith
  rw [hpre]
  dsimp only
  rw [show countFit (100 : ℚ) 0 fuel = none from
    countFitAux_zero_item 100 (by norm_num) fuel 0]

/-- Claim C3: on any request with all five fields present and nonzero item
dimensions, both loops of both variants terminate: some fuel returns a
value (a result or a thrown validation error). -/
theorem c3_terminates (req : LayoutRequest) (dw dh dm iw ih : ℚ)
    (h1 : req.documentWidth = some dw) (h2 : req.documentHeight = some dh)
    (h3 : req.documentMargin = some dm)
    (h4 : req.itemWidth = some iw) (h5 : req.itemHeight = some ih)
    (hiw0 : iw ≠ 0) (hih0 : ih ≠ 0) :
    ∃ fuel, (optimizeStepAndRepeat fuel req).isSome
      ∧ (optimizeStepAndRepeatPart000 fuel req).isSome := by
  cases hpre : prepare req with
  | error e =>
    refine ⟨1, ?_, ?_⟩
    · unfold optimizeStepAndRepeat
      rw [optimizeWith_prepare_error countFit 1 req e hpre]
      rfl
    · unfold optimizeStepAndRepeatPart000
      rw [optimizeWith_prepare_error countFitStrict 1 req e hpre]
      rfl
  | ok pre =>
    have hpv := hpre
    rw [prepare_eq_vals req dw dh iw ih h1 h2 h4 h5] at hpv
    obtain ⟨hnw, hnh⟩ := prepareVals_ok_nonneg _ _ _ _ _ pre hpv
    obtain ⟨_, hfw, hfh, _, _⟩ := prepareVals_ok_fields _ _ _ _ _ pre hpv
    have hiwpos : 0 < pre.itemWidth := hfw ▸ abs_pos.mpr hiw0
    have hihpos : 0 < pre.itemHeight := hfh ▸ abs_pos.mpr hih0
    obtain ⟨n1, hn1⟩ := exists_nat_gt (pre.usableWidth / pre.itemWidth)
    obtain ⟨n2, hn2⟩ := exists_nat_gt (pre.usableHeight / pre.itemHeight)
    have hb1 : pre.usableWidth < (max 1 (max n1 n2) : ℕ) * pre.itemWidth := by
      have hx : pre.usableWidth < (n1 : ℚ) * pre.itemWidth :=
        (div_lt_iff hiwpos).mp hn1
      have hy : (n1 : ℚ) ≤ (max 1 (max n1 n2) : ℕ) := by
        exact_mod_cast le_trans (le_max_left n1 n2) (le_max_right 1 (max n1 n2))
      nlinarith
    have hb2 : pre.usableHeight < (max 1 (max n1 n2) : ℕ) * pre.itemHeight := by
      have hx : pre.usableHeight < (n2 : ℚ) * pre.itemHeight :=
        (div_lt_iff hihpos).mp hn2
      have hy : (n2 : ℚ) ≤ (max 1 (max n1 n2) : ℕ) := by
        exact_mod_cast le_trans (le_max_right n1 n2) (le_max_right 1 (max n1 n2))
      nlinarith
    have hf1 : 1 ≤ max 1 (max n1 n2) := le_max_left 1 (max n1 n2)
    refine ⟨max 1 (max n1 n2), ?_, ?_⟩
    · exact optimizeWith_isSome_of countFit _ req pre hpre
        (countFitAux_isSome _ _ hiwpos _ 0 0 hf1 (by linarith))
        (countFitAux_isSome _ _ hihpos _ 0 0 hf1 (by linarith))
    · exact optimizeWith_isSome_of countFitStrict _ req pre hpre
        (countFitAux_isSome _ _ hiwpos _ 0 0 hf1 (by linarith))
        (countFitStrictAux_isSome _ _ hihpos _ 0 0 hf1 (by linarith))

/-- Claim C3, witness on a small concrete request. -/
theorem c3_terminates_witness :
    ∃ fuel, (optimizeStepAndRepeat fuel (mkReq 60 40 5 7 9)).isSome
      ∧ (optimizeStepAndRepeatPart000 fuel (mkReq 60 40 5 7 9)).isSome :=
  c3_terminates (mkReq 60 40 5 7 9) 60 40 5 7 9 rfl rfl rfl rfl rfl
    (by norm_num) (by norm_num)

/-!
Inversion and evaluation lemmas for the commit logic.
-/

/-- Inversion of a non-square commit that produced two candidates: the
landscape candidate came from the optimizer on `(highest, lowest)`, the
portrait candidate from `(lowest, highest)`, and the surfaced tag is the
strict item-count comparison. -/
theorem commitChanges_rect_inv (fuel : ℕ) (dw dh m iw ih : ℚ) (l p : LayoutResult)
    (sel : Orientation) (hne : dw ≠ dh)
    (h : commitChanges fuel dw dh m iw ih =
      some (Except.ok (OrientationOutcome.rect l p sel))) :
    optimizeStepAndRepeat fuel
      (mkReq (if dw > dh then dw else dh) (if dw > dh then dh else dw) m iw ih) =
        some (Except.ok l)
    ∧ optimizeStepAndRepeat fuel
      (mkReq (if dw > dh then dh else dw) (if dw > dh then dw else dh) m iw ih) =
        some (Except.ok p)
    ∧ sel = (if itemCount p > itemCount l then Orientation.portrait
        else Orientation.landscape) := by
  unfold commitChanges at h
  rw [if_neg hne] at h
  cases hL : optimizeStepAndRepeat fuel
      (mkReq (if dw > dh then dw else dh) (if dw > dh then dh else dw) m iw ih) with
  | none => rw [hL] at h; exact absurd h (by simp)
  | some vL =>
    rw [hL] at h
    cases vL with
    | error e => exact absurd (Option.some.inj h) (by simp)
    | ok lr =>
      dsimp only at h
      cases hP : optimizeStepAndRepeat fuel
          (mkReq (if dw > dh then dh else dw) (if dw > dh then dw else dh) m iw ih) with
      | none => rw [hP] at h; exact absurd h (by simp)
      | some vP =>
        rw [hP] at h
        cases vP with
        | error e => exact absurd (Option.some.inj h) (by simp)
        | ok pr =>
          dsimp only at h
          obtain ⟨rfl, rfl, rfl⟩ :=
            OrientationOutcome.rect.inj (Except.ok.inj (Option.some.inj h))
          exact ⟨rfl, rfl, rfl⟩

/-- Inversion of a non-square commit that surfaced a thrown error: one of
the two optimizer calls threw it. -/
theorem commitChanges_error_inv (fuel : ℕ) (dw dh m iw ih : ℚ) (e : LayoutError)
    (hne : dw ≠ dh)
    (h : commitChanges fuel dw dh m iw ih = some (Except.error e)) :
    optimizeStepAndRepeat fuel
      (mkReq (if dw > dh then dw else dh) (if dw > dh then dh else dw) m iw ih) =
        some (Except.error e)
    ∨ optimizeStepAndRepeat fuel
      (mkReq (if dw > dh then dh else dw) (if dw > dh then dw else dh) m iw ih) =
        some (Except.error e) := by
  unfold commitChanges at h
  rw [if_neg hne] at h
  cases hL : optimizeStepAndRepeat fuel
      (mkReq (if dw > dh then dw else dh) (if dw > dh then dh else dw) m iw ih) with
  | none => rw [hL] at h; exact absurd h (by simp)
  | some vL =>
    rw [hL] at h
    cases vL with
    | error e2 =>
      obtain rfl := Except.error.inj (Option.some.inj h)
      exact Or.inl rfl
    | ok lr =>
      dsimp only at h
      cases hP : optimizeStepAndRepeat fuel
          (mkReq (if dw > dh then dh else dw) (if dw > dh then dw else dh) m iw ih) with
      | none => rw [hP] at h; exact absurd h (by simp)
      | some vP =>
        rw [hP] at h
        cases vP with
        | error e2 =>
          obtain rfl := Except.error.inj (Option.some.inj h)
          exact Or.inr rfl
        | ok pr => exact absurd (Option.some.inj h) (by simp)

/-- Forward evaluation of a non-square commit with `docWidth > docHeight`
whose two optimizer calls both return results. -/
theorem commitChanges_eval_gt (fuel : ℕ) (dw dh m iw ih : ℚ) (l p : LayoutResult)
    (hne : dw ≠ dh) (hgt : dw > dh)
    (hl : optimizeStepAndRepeat fuel (mkReq dw dh m iw ih) = some (Except.ok l))
    (hp : optimizeStepAndRepeat fuel (mkReq dh dw m iw ih) = some (Except.ok p)) :
    commitChanges fuel dw dh m iw ih = some (Except.ok (OrientationOutcome.rect l p
      (if itemCount p > itemCount l then Orientation.portrait
        else Orientation.landscape))) := by
  unfold commitChanges
  rw [if_neg hne]
  simp only [if_pos hgt]
  rw [hl]
  dsimp only
  rw [hp]

/-!
Concrete commit results for the witnesses.
-/

/-- Landscape candidate of a 100 by 50 canvas with zero margin and 10 by
10 items: five rows of ten. -/
def resL100x50 : LayoutResult :=
  { documentWidth := 100, documentHeight := 50, documentMargin := 0,
    itemWidth := 10, itemHeight := 10, documentWidthReal := 100,
    documentHeightReal := 50, maxRows := 5, maxColumns := 10 }

/-- Portrait candidate of the same canvas: ten rows of five. -/
def resP50x100 : LayoutResult :=
  { documentWidth := 50, documentHeight := 100, documentMargin := 0,
    itemWidth := 10, itemHeight := 10, documentWidthReal := 50,
    documentHeightReal := 100, maxRows := 10, maxColumns := 5 }

/-- Landscape candidate of a 200 by 100 canvas with zero margin and 20 by
20 items. -/
def resL200 : LayoutResult :=
  { documentWidth := 200, documentHeight := 100, documentMargin := 0,
    itemWidth := 20, itemHeight := 20, documentWidthReal := 200,
    documentHeightReal := 100, maxRows := 5, maxColumns := 10 }

/-- Portrait candidate of the same canvas. -/
def resP200 : LayoutResult :=
  { documentWidth := 100, documentHeight := 200, documentMargin := 0,
    itemWidth := 20, itemHeight := 20, documentWidthReal := 100,
    documentHeightReal := 200, maxRows := 10, maxColumns := 5 }

theorem eval_commit_100_50 :
    commitChanges 16 100 50 0 10 10 = some (Except.ok
      (OrientationOutcome.rect resL100x50 resP50x100 Orientation.landscape)) := by
  have hpre1 := prepare_eval_zero (mkReq 100 50 0 10 10) 100 50 10 10 rfl rfl rfl rfl rfl
    (by norm_num) (by norm_num) (by norm_num) (by norm_num)
  have hpre2 := prepare_eval_zero (mkReq 50 100 0 10 10) 50 100 10 10 rfl rfl rfl rfl rfl
    (by norm_num) (by norm_num) (by norm_num) (by norm_num)
  have hc10 : countFit 100 10 16 = some 10 :=
    countFit_eq 100 10 16 10 (by norm_num) (by norm_num) (by norm_num) (by norm_num) (by norm_num)
  have hc5 : countFit 50 10 16 = some 5 :=
    countFit_eq 50 10 16 5 (by norm_num) (by norm_num) (by norm_num) (by norm_num) (by norm_num)
  have hl : optimizeStepAndRepeat 16 (mkReq 100 50 0 10 10) = some (Except.ok resL100x50) :=
    optimizeWith_ok countFit 16 _ _ 10 5 hpre1 hc10 hc5
  have hp : optimizeStepAndRepeat 16 (mkReq 50 100 0 10 10) = some (Except.ok resP50x100) :=
    optimizeWith_ok countFit 16 _ _ 5 10 hpre2 hc5 hc10
  have h := commitChanges_eval_gt 16 100 50 0 10 10 resL100x50 resP50x100
    (by norm_num) (by norm_num) hl hp
  rw [h]
  norm_num [itemCount, resL100x50, resP50x100]

theorem eval_commit_200_100 :
    commitChanges 16 200 100 0 20 20 = some (Except.ok
      (OrientationOutcome.rect resL200 resP200 Orientation.landscape)) := by
  have hpre1 := prepare_eval_zero (mkReq 200 100 0 20 20) 200 100 20 20 rfl rfl rfl rfl rfl
    (by norm_num) (by norm_num) (by norm_num) (by norm_num)
  have hpre2 := prepare_eval_zero (mkReq 100 200 0 20 20) 100 200 20 20 rfl rfl rfl rfl rfl
    (by norm_num) (by norm_num) (by norm_num) (by norm_num)
  have hc10 : countFit 200 20 16 = some 10 :=
    countFit_eq 200 20 16 10 (by norm_num) (by norm_num) (by norm_num) (by norm_num) (by norm_num)
  have hc5 : countFit 100 20 16 = some 5 :=
    countFit_eq 100 20 16 5 (by norm_num) (by norm_num) (by norm_num) (by norm_num) (by norm_num)
  have hl : optimizeStepAndRepeat 16 (mkReq 200 100 0 20 20) = some (Except.ok resL200) :=
    optimizeWith_ok countFit 16 _ _ 10 5 hpre1 hc10 hc5
  have hp : optimizeStepAndRepeat 16 (mkReq 100 200 0 20 20) = some (Except.ok resP200) :=
    optimizeWith_ok countFit 16 _ _ 5 10 hpre2 hc5 hc10
  have h := commitChanges_eval_gt 16 200 100 0 20 20 resL200 resP200
    (by norm_num) (by norm_num) hl hp
  rw [h]
  norm_num [itemCount, resL200, resP200]

/-- Claim C4: on a non-square canvas where both candidates were produced,
the surfaced candidate has at least as many items as either candidate, the
portrait candidate is surfaced only on a strictly greater count, and an
exact tie surfaces the landscape candidate. -/
theorem c4_preferred (fuel : ℕ) (dw dh m iw ih : ℚ) (l p : LayoutResult)
    (sel : Orientation) (hne : dw ≠ dh)
    (h : commitChanges fuel dw dh m iw ih =
      some (Except.ok (OrientationOutcome.rect l p sel))) :
    itemCount l ≤ itemCount (surfacedOf l p sel)
    ∧ itemCount p ≤ itemCount (surfacedOf l p sel)
    ∧ (sel = Orientation.portrait → itemCount l < itemCount p)
    ∧ (itemCount p = itemCount l → sel = Orientation.landscape) := by
  obtain ⟨-, -, hsel⟩ := commitChanges_rect_inv fuel dw dh m iw ih l p sel hne h
  by_cases hcount : itemCount p > itemCount l
  · rw [if_pos hcount] at hsel
    subst hsel
    dsimp [surfacedOf]
    exact ⟨le_of_lt hcount, le_rfl, fun _ => hcount,
      fun he => ((lt_irrefl _ (he ▸ hcount)).elim)⟩
  · rw [if_neg hcount] at hsel
    subst hsel
    dsimp [surfacedOf]
    exact ⟨le_rfl, not_lt.mp hcount, fun hps => Orientation.noConfusion hps, fun _ => rfl⟩

/-- Claim C4, witness: the 100 by 50 canvas of concrete scenario 3. Both
candidates pack fifty items; the tie surfaces the landscape candidate,
whose count is at least either count. -/
theorem c4_preferred_witness :
    itemCount resL100x50 ≤ itemCount (surfacedOf resL100x50 resP50x100 Orientation.landscape)
    ∧ itemCount resP50x100 ≤ itemCount (surfacedOf resL100x50 resP50x100 Orientation.landscape)
    ∧ (Orientation.landscape = Orientation.portrait →
        itemCount resL100x50 < itemCount resP50x100)
    ∧ (itemCount resP50x100 = itemCount resL100x50 →
        Orientation.landscape = Orientation.landscape) :=
  c4_preferred 16 100 50 0 10 10 resL100x50 resP50x100 Orientation.landscape
    (by norm_num) eval_commit_100_50

/-- Claim C5, counterexample. The claim demands that the selector run the
optimizer exactly twice, a landscape and then a portrait invocation, on
every non-square input pair. On the non-square pair 100 by 50 with margin
60 the first (landscape) invocation throws the margin error and the commit
aborts before the portrait invocation: the outcome carries the single
propagated error and no candidate pair. -/
theorem c5_counterexample :
    (100 : ℚ) ≠ 50
    ∧ commitChanges 16 100 50 60 10 10 =
        some (Except.error (LayoutError.tooMuchMargin Axis.width)) := by
  refine ⟨by norm_num, ?_⟩
  have hprep : prepare (mkReq 100 50 60 10 10) =
      Except.error (LayoutError.tooMuchMargin Axis.width) := by
    rw [prepare_eq_vals _ 100 50 10 10 rfl rfl rfl rfl]
    have hgd : (mkReq 100 50 60 10 10).documentMargin.getD (127 / 10) = 60 := rfl
    rw [hgd]
    exact prepareVals_width_error 100 50 60 10 10 (by norm_num)
      (by rw [abs_of_nonneg (by norm_num : (0 : ℚ) ≤ 100),
        abs_of_nonneg (by norm_num : (0 : ℚ) ≤ 60)]; norm_num)
  have hopt : optimizeStepAndRepeat 16 (mkReq 100 50 60 10 10) =
      some (Except.error (LayoutError.tooMuchMargin Axis.width)) := by
    unfold optimizeStepAndRepeat
    exact optimizeWith_prepare_error countFit 16 _ _ hprep
  unfold commitChanges
  rw [if_neg (by norm_num : (100 : ℚ) ≠ 50)]
  simp only [if_pos (show (100 : ℚ) > 50 by norm_num)]
  rw [hopt]

/-- Claim C5 (amended): a square pair is optimized once with the
dimensions unchanged and tagged square; a non-square pair that produces
its two candidates got them from exactly the two optimizer invocations
`(max, min)` tagged landscape and `(min, max)` tagged portrait, sharing
margin and item dimensions; and a non-square pair whose commit surfaces an
error got that error from one of those two invocations, the selection
aborting instead of producing candidates. -/
theorem c5_amended (fuel : ℕ) (dw dh m iw ih : ℚ) :
    (dw = dh → commitChanges fuel dw dh m iw ih =
      Option.map (Except.map OrientationOutcome.square)
        (optimizeStepAndRepeat fuel (mkReq dw dh m iw ih)))
    ∧ (dw ≠ dh → ∀ l p sel, commitChanges fuel dw dh m iw ih =
        some (Except.ok (OrientationOutcome.rect l p sel)) →
        optimizeStepAndRepeat fuel (mkReq (max dw dh) (min dw dh) m iw ih) =
          some (Except.ok l)
        ∧ optimizeStepAndRepeat fuel (mkReq (min dw dh) (max dw dh) m iw ih) =
          some (Except.ok p))
    ∧ (dw ≠ dh → ∀ e, commitChanges fuel dw dh m iw ih = some (Except.error e) →
        optimizeStepAndRepeat fuel (mkReq (max dw dh) (min dw dh) m iw ih) =
          some (Except.error e)
        ∨ optimizeStepAndRepeat fuel (mkReq (min dw dh) (max dw dh) m iw ih) =
          some (Except.error e)) := by
  have hmax : (if dw > dh then dw else dh) = max dw dh := by
    by_cases hgt : dw > dh
    · rw [if_pos hgt, max_eq_left (le_of_lt hgt)]
    · rw [if_neg hgt, max_eq_right (not_lt.mp hgt)]
  have hmin : (if dw > dh then dh else dw) = min dw dh := by
    by_cases hgt : dw > dh
    · rw [if_pos hgt, min_eq_right (le_of_lt hgt)]
    · rw [if_neg hgt, min_eq_left (not_lt.mp hgt)]
  refine ⟨?_, ?_, ?_⟩
  · intro hsq
    unfold commitChanges
    rw [if_pos hsq]
    cases hx : optimizeStepAndRepeat fuel (mkReq dw dh m iw ih) with
    | none => rfl
    | some v =>
      cases v with
      | error e => rfl
      | ok r => rfl
  · intro hne l p sel h
    obtain ⟨hl, hp, -⟩ := commitChanges_rect_inv fuel dw dh m iw ih l p sel hne h
    rw [hmax, hmin] at hl hp
    exact ⟨hl, hp⟩
  · intro hne e h
    have hor := commitChanges_error_inv fuel dw dh m iw ih e hne h
    rw [hmax, hmin] at hor
    exact hor

/-- Claim C5, witness: the square branch on an 80 by 80 canvas, and the
two characterized invocations on a 200 by 100 canvas. -/
theorem c5_amended_witness :
    commitChanges 16 80 80 0 10 10 =
      Option.map (Except.map OrientationOutcome.square)
        (optimizeStepAndRepeat 16 (mkReq 80 80 0 10 10))
    ∧ (optimizeStepAndRepeat 16 (mkReq (max (200 : ℚ) 100) (min (200 : ℚ) 100) 0 20 20) =
        some (Except.ok resL200)
      ∧ optimizeStepAndRepeat 16 (mkReq (min (200 : ℚ) 100) (max (200 : ℚ) 100) 0 20 20) =
        some (Except.ok resP200)) :=
  ⟨(c5_amended 16 80 80 0 10 10).1 rfl,
    (c5_amended 16 200 100 0 20 20).2.1 (by norm_num) resL200 resP200
      Orientation.landscape eval_commit_200_100⟩

/-- Claim C6: on a request with all fields present and a nonzero margin,
a consumed usable width throws the width margin error, a consumed usable
height (with the width surviving) throws the height margin error, and any
returned result has strictly positive usable dimensions. The dimensions
and margin are compared after the absolute-value normalization the source
applies first. -/
theorem c6_margin (fuel : ℕ) (req : LayoutRequest) (dw dh m iw ih : ℚ)
    (h1 : req.documentWidth = some dw) (h2 : req.documentHeight = some dh)
    (h3 : req.documentMargin = some m)
    (h4 : req.itemWidth = some iw) (h5 : req.itemHeight = some ih)
    (hm : m ≠ 0) :
    (|dw| - |m| * 2 ≤ 0 →
      optimizeStepAndRepeat fuel req =
        some (Except.error (LayoutError.tooMuchMargin Axis.width)))
    ∧ (0 < |dw| - |m| * 2 → |dh| - |m| * 2 ≤ 0 →
      optimizeStepAndRepeat fuel req =
        some (Except.error (LayoutError.tooMuchMargin Axis.height)))
    ∧ (∀ r, optimizeStepAndRepeat fuel req = some (Except.ok r) →
      0 < r.documentWidth ∧ 0 < r.documentHeight) := by
  have hgd : req.documentMargin.getD (127 / 10) = m := by rw [h3]; rfl
  refine ⟨?_, ?_, ?_⟩
  · intro hw
    unfold optimizeStepAndRepeat
    apply optimizeWith_prepare_error
    rw [prepare_eq_vals req dw dh iw ih h1 h2 h4 h5, hgd]
    exact prepareVals_width_error dw dh m iw ih hm hw
  · intro hwpos hh
    unfold optimizeStepAndRepeat
    apply optimizeWith_prepare_error
    rw [prepare_eq_vals req dw dh iw ih h1 h2 h4 h5, hgd]
    exact prepareVals_height_error dw dh m iw ih hm hwpos hh
  · intro r hr
    obtain ⟨pre, cols, rows, hpre, -, -, rfl⟩ := optimizeWith_ok_inv countFit fuel req r hr
    rw [prepare_eq_vals req dw dh iw ih h1 h2 h4 h5, hgd] at hpre
    obtain ⟨-, -, hw, hh⟩ := prepareVals_ok_margin dw dh m iw ih pre hm hpre
    exact ⟨hw, hh⟩

/-- Claim C6, witness at concrete scenario 4: a 60 margin on a 100 by 100
document consumes the width, and the width margin error is thrown. -/
theorem c6_margin_witness :
    optimizeStepAndRepeat 8 (mkReq 100 100 60 10 10) =
      some (Except.error (LayoutError.tooMuchMargin Axis.width)) :=
  (c6_margin 8 (mkReq 100 100 60 10 10) 100 100 60 10 10 rfl rfl rfl rfl rfl
    (by norm_num)).1
    (by rw [abs_of_nonneg (by norm_num : (0 : ℚ) ≤ 100),
      abs_of_nonneg (by norm_num : (0 : ℚ) ≤ 60)]; norm_num)

/-- A request with the margin field absent, every other field present. -/
def reqNoMargin : LayoutRequest :=
  { documentWidth := some 100, documentHeight := some 100, documentMargin := none,
    itemWidth := some 10, itemHeight := some 10 }

/-- Claim C7, counterexample. The claim asserts that an absent margin
field, like the other four fields, makes the optimizer fail with the
missing-field error. It does not: the absent margin is replaced by the
default 12.7 before the null checks run, and the call returns an ordinary
result whose stored margin is 12.7. -/
theorem c7_counterexample :
    reqNoMargin.documentMargin = none
    ∧ optimizeStepAndRepeat 16 reqNoMargin = some (Except.ok res100)
    ∧ res100.documentMargin = 127 / 10 := by
  refine ⟨rfl, ?_, rfl⟩
  have hd := optimize_margin_default countFit 16 reqNoMargin rfl
  unfold optimizeStepAndRepeat
  rw [hd]
  have hq : ({ reqNoMargin with documentMargin := some (127 / 10) } : LayoutRequest) =
      mkReq 100 100 (127 / 10) 10 10 := rfl
  rw [hq]
  exact eval_app100_margin 16 (by norm_num)

/-- Claim C7 (amended): a null or absent `documentWidth`,
`documentHeight`, `itemWidth` or `itemHeight` (checked in that key order)
makes the optimizer throw the null-property error naming that field, and
none of them is defaulted to zero; the margin field alone is exempt: when
absent it is replaced by the default 12.7, not zero, and the call proceeds
exactly as if 12.7 had been supplied. -/
theorem c7_amended (fuel : ℕ) (req : LayoutRequest) :
    (req.documentWidth = none →
      optimizeStepAndRepeat fuel req =
        some (Except.error (LayoutError.nullField FieldName.documentWidth)))
    ∧ (req.documentWidth ≠ none → req.documentHeight = none →
      optimizeStepAndRepeat fuel req =
        some (Except.error (LayoutError.nullField FieldName.documentHeight)))
    ∧ (req.documentWidth ≠ none → req.documentHeight ≠ none → req.itemWidth = none →
      optimizeStepAndRepeat fuel req =
        some (Except.error (LayoutError.nullField FieldName.itemWidth)))
    ∧ (req.documentWidth ≠ none → req.documentHeight ≠ none → req.itemWidth ≠ none →
      req.itemHeight = none →
      optimizeStepAndRepeat fuel req =
        some (Except.error (LayoutError.nullField FieldName.itemHeight)))
    ∧ (req.documentMargin = none →
      optimizeStepAndRepeat fuel req =
        optimizeStepAndRepeat fuel { req with documentMargin := some (127 / 10) }) := by
  refine ⟨?_, ?_, ?_, ?_, ?_⟩
  · intro h
    unfold optimizeStepAndRepeat
    exact optimizeWith_prepare_error countFit fuel req _ (prepare_null_documentWidth req h)
  · intro hdw h
    obtain ⟨dw, g1⟩ := Option.ne_none_iff_exists'.mp hdw
    unfold optimizeStepAndRepeat
    exact optimizeWith_prepare_error countFit fuel req _
      (prepare_null_documentHeight req dw g1 h)
  · intro hdw hdh h
    obtain ⟨dw, g1⟩ := Option.ne_none_iff_exists'.mp hdw
    obtain ⟨dh, g2⟩ := Option.ne_none_iff_exists'.mp hdh
    unfold optimizeStepAndRepeat
    exact optimizeWith_prepare_error countFit fuel req _
      (prepare_null_itemWidth req dw dh g1 g2 h)
  · intro hdw hdh hiw h
    obtain ⟨dw, g1⟩ := Option.ne_none_iff_exists'.mp hdw
    obtain ⟨dh, g2⟩ := Option.ne_none_iff_exists'.mp hdh
    obtain ⟨iw, g4⟩ := Option.ne_none_iff_exists'.mp hiw
    unfold optimizeStepAndRepeat
    exact optimizeWith_prepare_error countFit fuel req _
      (prepare_null_itemHeight req dw dh iw g1 g2 g4 h)
  · intro h
    unfold optimizeStepAndRepeat
    exact optimize_margin_default countFit fuel req h

/-- Claim C7, witness: a request missing its document width throws the
null-property error naming `documentWidth`. -/
theorem c7_amended_witness :
    optimizeStepAndRepeat 4
      ({ documentWidth := none, documentHeight := some 100, documentMargin := some 0,
         itemWidth := some 10, itemHeight := some 10 } : LayoutRequest) =
      some (Except.error (LayoutError.nullField FieldName.documentWidth)) :=
  (c7_amended 4 _).1 rfl

/-- Claim C8: the default margin 12.7 is applied exactly when the margin
field is absent, and an explicitly zero margin is kept: the margin branch
is skipped entirely, so no margin error can be thrown and a returned
result keeps the (absolute-valued) document dimensions unreduced with a
stored margin of zero. -/
theorem c8_marginDefault (fuel : ℕ) (req : LayoutRequest) (dw dh : ℚ)
    (hdw : req.documentWidth = some dw) (hdh : req.documentHeight = some dh) :
    (req.documentMargin = none →
      optimizeStepAndRepeat fuel req =
        optimizeStepAndRepeat fuel { req with documentMargin := some (127 / 10) })
    ∧ (req.documentMargin = some 0 →
      (∀ ax, optimizeStepAndRepeat fuel req ≠
        some (Except.error (LayoutError.tooMuchMargin ax)))
      ∧ (∀ r, optimizeStepAndRepeat fuel req = some (Except.ok r) →
          r.documentWidth = |dw| ∧ r.documentHeight = |dh| ∧ r.documentMargin = 0)) := by
  constructor
  · intro h
    unfold optimizeStepAndRepeat
    exact optimize_margin_default countFit fuel req h
  · intro h0
    have hgd : req.documentMargin.getD (127 / 10) = 0 := by rw [h0]; rfl
    constructor
    · intro ax hcon
      have herr := optimizeWith_error_inv countFit fuel req _ hcon
      cases h4 : req.itemWidth with
      | none =>
        rw [prepare_null_itemWidth req dw dh hdw hdh h4] at herr
        exact absurd herr (by simp)
      | some iw =>
        cases h5 : req.itemHeight with
        | none =>
          rw [prepare_null_itemHeight req dw dh iw hdw hdh h4 h5] at herr
          exact absurd herr (by simp)
        | some ih =>
          rw [prepare_eq_vals req dw dh iw ih hdw hdh h4 h5, hgd] at herr
          exact prepareVals_zero_margin_no_margin_error dw dh iw ih ax herr
    · intro r hr
      obtain ⟨pre, cols, rows, hpre, -, -, rfl⟩ := optimizeWith_ok_inv countFit fuel req r hr
      obtain ⟨dw2, dh2, iw, ih, g1, g2, g4, g5⟩ := prepare_ok_present req pre hpre
      rw [prepare_eq_vals req dw dh iw ih hdw hdh g4 g5, hgd, prepareVals_zero_margin] at hpre
      obtain rfl := Except.ok.inj hpre
      exact ⟨rfl, rfl, rfl⟩

/-- Claim C8, witness: a 90 by 70 request with an explicit zero margin
never throws a margin error. -/
theorem c8_marginDefault_witness :
    optimizeStepAndRepeat 16 (mkReq 90 70 0 10 10) ≠
      some (Except.error (LayoutError.tooMuchMargin Axis.width)) :=
  ((c8_marginDefault 16 (mkReq 90 70 0 10 10) 90 70 rfl rfl).2 rfl).1 Axis.width

/-- Claim C9, counterexample. The claim asserts that the retained
`documentWidthReal` equals the exact (signed) original the caller
supplied. It does not: the sanitize loop iterates over every key of the
props object, the Real copies included (they are written before the loop
runs), so a caller width of -100 is retained as 100, not -100. -/
theorem c9_counterexample :
    optimizeStepAndRepeat 16 (mkReq (-100) 100 0 10 10) = some (Except.ok resNeg100)
    ∧ resNeg100.documentWidthReal = 100
    ∧ ¬ (resNeg100.documentWidthReal = -100) := by
  refine ⟨eval_appNeg100, rfl, ?_⟩
  norm_num [resNeg100]

/-- Claim C9 (amended): the optimizer is invariant under flipping the sign
of any input, so negative inputs never cause an error that their
magnitudes would not cause, and a returned result retains the absolute
values of the original pre-margin dimensions in `documentWidthReal` and
`documentHeightReal` (equal to the supplied values whenever those were
nonnegative). -/
theorem c9_amended (fuel : ℕ) (dw dh m iw ih : ℚ) :
    optimizeStepAndRepeat fuel (mkReq dw dh m iw ih) =
      optimizeStepAndRepeat fuel (mkReq |dw| |dh| |m| |iw| |ih|)
    ∧ (∀ r, optimizeStepAndRepeat fuel (mkReq dw dh m iw ih) = some (Except.ok r) →
        r.documentWidthReal = |dw| ∧ r.documentHeightReal = |dh|) := by
  constructor
  · have hp : prepare (mkReq dw dh m iw ih) = prepare (mkReq |dw| |dh| |m| |iw| |ih|) := by
      rw [prepare_eq_vals (mkReq dw dh m iw ih) dw dh iw ih rfl rfl rfl rfl,
        prepare_eq_vals (mkReq |dw| |dh| |m| |iw| |ih|) |dw| |dh| |iw| |ih| rfl rfl rfl rfl]
      have g1 : (mkReq dw dh m iw ih).documentMargin.getD (127 / 10) = m := rfl
      have g2 : (mkReq |dw| |dh| |m| |iw| |ih|).documentMargin.getD (127 / 10) = |m| := rfl
      rw [g1, g2]
      unfold prepareVals
      simp only [abs_abs]
    unfold optimizeStepAndRepeat optimizeWith
    rw [hp]
  · intro r hr
    obtain ⟨pre, cols, rows, hpre, -, -, rfl⟩ :=
      optimizeWith_ok_inv countFit fuel (mkReq dw dh m iw ih) r hr
    rw [prepare_eq_vals (mkReq dw dh m iw ih) dw dh iw ih rfl rfl rfl rfl] at hpre
    obtain ⟨-, -, -, hwr, hhr⟩ := prepareVals_ok_fields _ _ _ _ _ pre hpre
    exact ⟨hwr, hhr⟩

/-- Claim C9, witness at the signed input -100: the retained Real width is
the magnitude of the input. -/
theorem c9_amended_witness :
    resNeg100.documentWidthReal = |(-100 : ℚ)|
    ∧ resNeg100.documentHeightReal = |(100 : ℚ)| :=
  (c9_amended 16 (-100) 100 0 10 10).2 resNeg100 eval_appNeg100

/-- Claim C10, counterexample. The source mutates the props object in
place and returns that same object (`return props`), so after a call the
caller re-reads the mutated fields, not the originals: for a 100 by 100
request with the default margin, the post-call `documentWidth` is the
margin-reduced 74.6, not the supplied 100. -/
theorem c10_counterexample :
    optimizeStepAndRepeat 16 (mkReq 100 100 (127 / 10) 10 10) = some (Except.ok res100)
    ∧ res100.documentWidth = 373 / 5
    ∧ ¬ ((373 / 5 : ℚ) = 100) := by
  refine ⟨eval_app100_margin 16 (by norm_num), rfl, by norm_num⟩

/-- Claim C10 (amended): the optimizer is deterministic, any two
terminating evaluations of the same request agree, but it is not
mutation-free: the returned object is the caller's request object, and
after any successful call with a nonzero margin its `documentWidth` field
holds the margin-reduced value, strictly below the magnitude of the
original width. -/
theorem c10_amended (f g : ℕ) (req : LayoutRequest)
    (x y : Except LayoutError LayoutResult)
    (hx : optimizeStepAndRepeat f req = some x)
    (hy : optimizeStepAndRepeat g req = some y) :
    x = y
    ∧ (∀ r dw m, x = Except.ok r → req.documentWidth = some dw →
        req.documentMargin = some m → m ≠ 0 → r.documentWidth < |dw|) := by
  constructor
  · rcases le_total f g with hfg | hgf
    · have hmono := optimizeStepAndRepeat_mono f g req x hfg hx
      rw [hmono] at hy
      exact Option.some.inj hy
    · have hmono := optimizeStepAndRepeat_mono g f req y hgf hy
      rw [hmono] at hx
      exact (Option.some.inj hx).symm
  · intro r dw m hxr hdw hm hm0
    subst hxr
    obtain ⟨pre, cols, rows, hpre, -, -, rfl⟩ := optimizeWith_ok_inv countFit f req r hx
    obtain ⟨dw2, dh, iw, ih, g1, g2, g4, g5⟩ := prepare_ok_present req pre hpre
    rw [prepare_eq_vals req dw2 dh iw ih g1 g2 g4 g5] at hpre
    have hgd : req.documentMargin.getD (127 / 10) = m := by rw [hm]; rfl
    rw [hgd] at hpre
    obtain ⟨huw, -, -, -⟩ := prepareVals_ok_margin dw2 dh m iw ih pre hm0 hpre
    have hdd : dw2 = dw := by
      rw [g1] at hdw
      exact Option.some.inj hdw
    have habs : 0 < |m| := abs_pos.mpr hm0
    show pre.usableWidth < |dw|
    rw [huw, ← hdd]
    linarith

/-- Claim C10, witness: two evaluations of the 100 by 100 default-margin
request agree, and the post-call document width 74.6 is strictly below
the original 100. -/
theorem c10_amended_witness : res100.documentWidth < |(100 : ℚ)| :=
  (c10_amended 16 17 (mkReq 100 100 (127 / 10) 10 10) (Except.ok res100) (Except.ok res100)
    (eval_app100_margin 16 (by norm_num)) (eval_app100_margin 17 (by norm_num))).2
    res100 100 (127 / 10) rfl rfl rfl (by norm_num)

end StepAndRepeat
